import Mathlib

/-!
# Verification of the Datasets-Final synthetic-data generators

Shallow embedding of the parts of the repository that the data-validity
claims talk about, together with proofs of those claims:

* `Banking` — the `BalanceTracker` in-memory ledger of
  `banking-code/transactions.py`, plus the missing-input-file recovery
  paths of `load_existing_transactions` and `accounts.py`, and the
  (unreachable-code) behaviour of `banking-code/customer.py`.
* `Insurance` — settlement and reinsurance arithmetic of
  `insurance code/claims.py` and the South African ID construction of
  `insurance code/customers.py`.
* `Airline` — the booking generator of `airplane code/bookings.py`.

Python dictionaries are embedded as association lists (newest binding
first, so lookup sees exactly the dictionary's current value); mutation
is explicit state passing; monetary amounts are rationals; `int(x)` on a
non-negative float is `Int.floor`; randomness is an explicit oracle
argument, so theorems quantify over every possible draw.
-/

namespace Banking

/-- One value of the `account_balances` dict of `BalanceTracker`
(`transactions.py`): balance, account type and the overdraft limit
captured at initialization time. -/
structure AccountInfo where
  balance : ℚ
  account_type : String
  overdraft_limit : ℚ
  deriving Repr, DecidableEq

/-- `self.overdraft_limits.get(account_type, -1000)`: the overdraft
limit keyed by account type, with default `-1000` for unknown types
(`BalanceTracker.__init__` and `initialize_account_balance`). -/
def overdraftLimitFor (account_type : String) : ℚ :=
  if account_type = "Premium Banking" then -10000
  else if account_type = "Gold Banking" then -5000
  else if account_type = "Standard Banking" then -2000
  else if account_type = "Basic Banking" then -500
  else if account_type = "Student Banking" then -200
  else if account_type = "Business Banking" then -20000
  else -1000

/-- The `BalanceTracker.account_balances` dict, as an association list;
the most recent binding for a key comes first. -/
def BalanceTracker := List (String × AccountInfo)

/-- Dictionary lookup `self.account_balances[account_id]`
(`None` when `account_id not in self.account_balances`). -/
def lookupAccount (t : BalanceTracker) (account_id : String) : Option AccountInfo :=
  (t.find? (fun p => p.1 = account_id)).map Prod.snd

/-- `BalanceTracker.initialize_account_balance`: store balance, type and
the keyed overdraft limit for the account. -/
def initialize_account_balance (t : BalanceTracker) (account_id account_type : String)
    (initial_deposit : ℚ) : BalanceTracker :=
  (account_id,
    { balance := initial_deposit
      account_type := account_type
      overdraft_limit := overdraftLimitFor account_type }) :: t

/-- In-place balance update
`self.account_balances[account_id]['balance'] = b`. -/
def setBalance (t : BalanceTracker) (account_id : String) (b : ℚ) : BalanceTracker :=
  t.map (fun p => if p.1 = account_id then (p.1, { p.2 with balance := b }) else p)

/-- `BalanceTracker.can_transact`: `False` for unknown accounts,
otherwise `(current_balance - amount) >= overdraft_limit`. -/
def can_transact (t : BalanceTracker) (account_id : String) (amount : ℚ) : Bool :=
  match lookupAccount t account_id with
  | none => false
  | some info => decide (info.overdraft_limit ≤ info.balance - amount)

/-- `BalanceTracker.process_transaction`: returns the `True`/`False`
result together with the updated tracker state. Debits are refused when
`can_transact` fails; credits always succeed for known accounts. -/
def process_transaction (t : BalanceTracker) (account_id : String) (amount : ℚ)
    (transaction_type : String) : Bool × BalanceTracker :=
  match lookupAccount t account_id with
  | none => (false, t)
  | some info =>
    if transaction_type = "debit" then
      if can_transact t account_id amount then
        (true, setBalance t account_id (info.balance - amount))
      else
        (false, t)
    else
      (true, setBalance t account_id (info.balance + amount))

/-- `BalanceTracker.get_balance`: `0` for unknown accounts. -/
def get_balance (t : BalanceTracker) (account_id : String) : ℚ :=
  match lookupAccount t account_id with
  | none => 0
  | some info => info.balance

/-- Every account the tracker knows sits at or above its overdraft
limit. -/
def WithinOverdraft (t : BalanceTracker) : Prop :=
  ∀ account_id info, lookupAccount t account_id = some info →
    info.overdraft_limit ≤ info.balance

/-- Run a list of `initialize_account_balance` calls
(`(account_id, account_type, initial_deposit)` triples). -/
def applyInits (t : BalanceTracker) (inits : List (String × String × ℚ)) : BalanceTracker :=
  inits.foldl (fun s i => initialize_account_balance s i.1 i.2.1 i.2.2) t

/-- Run a list of `process_transaction` calls
(`(account_id, amount, transaction_type)` triples), keeping the state. -/
def applyTransactions (t : BalanceTracker) (txs : List (String × ℚ × String)) : BalanceTracker :=
  txs.foldl (fun s tx => (process_transaction s tx.1 tx.2.1 tx.2.2).2) t

theorem lookup_cons (p : String × AccountInfo) (rest : List (String × AccountInfo))
    (x : String) :
    lookupAccount (p :: rest) x = if p.1 = x then some p.2 else lookupAccount rest x := by
  by_cases hp : p.1 = x
  · simp [lookupAccount, List.find?_cons_of_pos, hp]
  · simp [lookupAccount, List.find?_cons_of_neg, hp]

theorem lookup_setBalance_self (t : BalanceTracker) (a : String) (b : ℚ) (info : AccountInfo)
    (h : lookupAccount t a = some info) :
    lookupAccount (setBalance t a b) a = some { info with balance := b } := by
  induction t with
  | nil => simp [lookupAccount] at h
  | cons p rest ih =>
    by_cases hp : p.1 = a
    · rw [lookup_cons, if_pos hp] at h
      cases h
      show lookupAccount ((if p.1 = a then (p.1, { p.2 with balance := b }) else p)
        :: setBalance rest a b) a = _
      rw [if_pos hp, lookup_cons, if_pos hp]
    · rw [lookup_cons, if_neg hp] at h
      show lookupAccount ((if p.1 = a then (p.1, { p.2 with balance := b }) else p)
        :: setBalance rest a b) a = _
      rw [if_neg hp, lookup_cons, if_neg hp]
      exact ih h

theorem lookup_setBalance_other (t : BalanceTracker) (a x : String) (b : ℚ)
    (hx : x ≠ a) : lookupAccount (setBalance t a b) x = lookupAccount t x := by
  induction t with
  | nil => rfl
  | cons p rest ih =>
    show lookupAccount ((if p.1 = a then (p.1, { p.2 with balance := b }) else p)
      :: setBalance rest a b) x = _
    by_cases hp : p.1 = a
    · have hpx : ¬ p.1 = x := by rw [hp]; exact fun h => hx h.symm
      rw [if_pos hp, lookup_cons, lookup_cons, if_neg hpx, if_neg hpx]
      exact ih
    · by_cases hpx : p.1 = x
      · rw [if_neg hp, lookup_cons, lookup_cons, if_pos hpx, if_pos hpx]
      · rw [if_neg hp, lookup_cons, lookup_cons, if_neg hpx, if_neg hpx]
        exact ih

theorem process_transaction_unknown (t : BalanceTracker) (a : String) (amt : ℚ) (ty : String)
    (h : lookupAccount t a = none) :
    process_transaction t a amt ty = (false, t) := by
  simp [process_transaction, h]

theorem process_transaction_debit_ok (t : BalanceTracker) (a : String) (amt : ℚ)
    (info : AccountInfo) (h : lookupAccount t a = some info)
    (hct : can_transact t a amt = true) :
    process_transaction t a amt "debit" = (true, setBalance t a (info.balance - amt)) := by
  simp [process_transaction, h, hct]

theorem process_transaction_credit (t : BalanceTracker) (a : String) (amt : ℚ) (ty : String)
    (info : AccountInfo) (h : lookupAccount t a = some info) (hty : ty ≠ "debit") :
    process_transaction t a amt ty = (true, setBalance t a (info.balance + amt)) := by
  simp [process_transaction, h, hty]

theorem process_preserves_withinOverdraft (t : BalanceTracker) (a : String) (amt : ℚ)
    (ty : String) (hinv : WithinOverdraft t) (hamt : (0 : ℚ) ≤ amt) :
    WithinOverdraft (process_transaction t a amt ty).2 := by
  cases hl : lookupAccount t a with
  | none => rw [process_transaction_unknown t a amt ty hl]; exact hinv
  | some info =>
    by_cases hty : ty = "debit"
    · subst hty
      by_cases hct : can_transact t a amt = true
      · rw [process_transaction_debit_ok t a amt info hl hct]
        intro x i hx
        by_cases hxa : x = a
        · subst hxa
          rw [lookup_setBalance_self t x _ info hl] at hx
          cases hx
          simp only [can_transact, hl, decide_eq_true_eq] at hct
          exact hct
        · rw [lookup_setBalance_other t a x _ hxa] at hx
          exact hinv x i hx
      · have : process_transaction t a amt "debit" = (false, t) := by
          simp [process_transaction, hl, hct]
        rw [this]
        exact hinv
    · rw [process_transaction_credit t a amt ty info hl hty]
      intro x i hx
      by_cases hxa : x = a
      · subst hxa
        rw [lookup_setBalance_self t x _ info hl] at hx
        cases hx
        have := hinv x info hl
        simp only
        linarith
      · rw [lookup_setBalance_other t a x _ hxa] at hx
        exact hinv x i hx

theorem applyTransactions_preserves_withinOverdraft (txs : List (String × ℚ × String))
    (t : BalanceTracker) (hinv : WithinOverdraft t)
    (htx : ∀ tx ∈ txs, 0 ≤ tx.2.1) :
    WithinOverdraft (applyTransactions t txs) := by
  induction txs generalizing t with
  | nil => exact hinv
  | cons tx rest ih =>
    have h1 : WithinOverdraft (process_transaction t tx.1 tx.2.1 tx.2.2).2 :=
      process_preserves_withinOverdraft t tx.1 tx.2.1 tx.2.2 hinv
        (htx tx (List.mem_cons_self tx rest))
    exact ih _ h1 (fun x hx => htx x (List.mem_cons_of_mem tx hx))

theorem applyInits_withinOverdraft (inits : List (String × String × ℚ))
    (t : BalanceTracker) (hinv : WithinOverdraft t)
    (hinit : ∀ i ∈ inits, overdraftLimitFor i.2.1 ≤ i.2.2) :
    WithinOverdraft (applyInits t inits) := by
  induction inits generalizing t with
  | nil => exact hinv
  | cons i rest ih =>
    have h1 : WithinOverdraft (initialize_account_balance t i.1 i.2.1 i.2.2) := by
      intro x info hx
      rw [initialize_account_balance, lookup_cons] at hx
      by_cases hxa : i.1 = x
      · rw [if_pos hxa] at hx
        cases hx
        exact hinit i (List.mem_cons_self i rest)
      · rw [if_neg hxa] at hx
        exact hinv x info hx
    exact ih _ h1 (fun x hx => hinit x (List.mem_cons_of_mem i hx))

theorem refused_debit_unchanged (t : BalanceTracker) (a : String) (amt : ℚ)
    (h : can_transact t a amt = false) :
    process_transaction t a amt "debit" = (false, t) := by
  unfold process_transaction
  cases hl : lookupAccount t a with
  | none => rfl
  | some info => simp [h]

/-- C1: starting from an empty tracker, initializing any accounts with
opening balances at or above their keyed overdraft limits and then
running any sequence of non-negative debits/credits keeps every tracked
balance at or above its overdraft limit; moreover a debit that
`can_transact` rejects returns `False` and leaves the tracker
unchanged. -/
theorem overdraft_invariant_and_refusal
    (inits : List (String × String × ℚ)) (txs : List (String × ℚ × String))
    (hinit : ∀ i ∈ inits, overdraftLimitFor i.2.1 ≤ i.2.2)
    (htx : ∀ tx ∈ txs, 0 ≤ tx.2.1) :
    WithinOverdraft (applyTransactions (applyInits [] inits) txs) ∧
    (∀ (t : BalanceTracker) (a : String) (amt : ℚ),
      can_transact t a amt = false →
      process_transaction t a amt "debit" = (false, t)) := by
  constructor
  · refine applyTransactions_preserves_withinOverdraft txs _ ?_ htx
    refine applyInits_withinOverdraft inits [] ?_ hinit
    intro x info hx
    simp [lookupAccount] at hx
  · exact refused_debit_unchanged

theorem overdraft_invariant_and_refusal_witness :
    WithinOverdraft (applyTransactions
      (applyInits [] [("ACC1", "Basic Banking", 100)])
      [("ACC1", 550, "debit"), ("ACC1", 30, "credit")]) ∧
    (∀ (t : BalanceTracker) (a : String) (amt : ℚ),
      can_transact t a amt = false →
      process_transaction t a amt "debit" = (false, t)) :=
  overdraft_invariant_and_refusal
    [("ACC1", "Basic Banking", 100)]
    [("ACC1", 550, "debit"), ("ACC1", 30, "credit")]
    (by intro i hi; fin_cases hi; decide)
    (by intro tx htx; fin_cases htx <;> norm_num)

/-- C2: for a tracked account, `can_transact` answers `True` exactly
when `balance - amount` stays at or above the stored overdraft limit;
the limit stored by `initialize_account_balance` is the one keyed by
account type, and unknown account types get the default `-1000`. -/
theorem can_transact_iff_within_limit
    (t : BalanceTracker) (a : String) (amt : ℚ) (info : AccountInfo)
    (h : lookupAccount t a = some info) :
    (can_transact t a amt = true ↔ info.overdraft_limit ≤ info.balance - amt) ∧
    (∀ (ty : String) (init : ℚ),
      lookupAccount (initialize_account_balance t a ty init) a =
        some { balance := init, account_type := ty,
               overdraft_limit := overdraftLimitFor ty }) ∧
    (∀ ty : String, ty ∉ (["Premium Banking", "Gold Banking", "Standard Banking",
        "Basic Banking", "Student Banking", "Business Banking"] : List String) →
      overdraftLimitFor ty = -1000) := by
  refine ⟨?_, ?_, ?_⟩
  · simp [can_transact, h]
  · intro ty init
    simp [lookupAccount, initialize_account_balance, List.find?]
  · intro ty hty
    simp only [List.mem_cons, List.not_mem_nil, or_false, not_or] at hty
    obtain ⟨h1, h2, h3, h4, h5, h6⟩ := hty
    simp [overdraftLimitFor, h1, h2, h3, h4, h5, h6]

theorem can_transact_iff_within_limit_witness :
    lookupAccount (initialize_account_balance [] "A7" "Gold Banking" 20) "A7" =
      some { balance := 20, account_type := "Gold Banking", overdraft_limit := -5000 } ∧
    ((can_transact (initialize_account_balance [] "A7" "Gold Banking" 20) "A7" 4000 = true ↔
      (-5000 : ℚ) ≤ 20 - 4000)) := by
  have h : lookupAccount (initialize_account_balance [] "A7" "Gold Banking" 20) "A7" =
      some { balance := 20, account_type := "Gold Banking", overdraft_limit := -5000 } := by
    simp [lookupAccount, initialize_account_balance, List.find?, overdraftLimitFor]
  refine ⟨h, ?_⟩
  have := can_transact_iff_within_limit
    (initialize_account_balance [] "A7" "Gold Banking" 20) "A7" 4000
    { balance := 20, account_type := "Gold Banking", overdraft_limit := -5000 } h
  exact this.1

/-- C10: for an account never initialized, `can_transact` returns
`False`, `process_transaction` returns `False` for debits and credits
without touching the state, and `get_balance` returns `0`. -/
theorem uninitialized_account_total
    (t : BalanceTracker) (a : String) (amt : ℚ)
    (h : lookupAccount t a = none) :
    can_transact t a amt = false ∧
    process_transaction t a amt "debit" = (false, t) ∧
    process_transaction t a amt "credit" = (false, t) ∧
    get_balance t a = 0 := by
  refine ⟨?_, ?_, ?_, ?_⟩ <;>
    simp [can_transact, process_transaction, get_balance, h]

theorem uninitialized_account_total_witness :
    can_transact [] "GHOST" 5 = false ∧
    process_transaction [] "GHOST" 5 "debit" = (false, []) ∧
    process_transaction [] "GHOST" 5 "credit" = (false, []) ∧
    get_balance [] "GHOST" = 0 :=
  uninitialized_account_total [] "GHOST" 5 rfl

end Banking

namespace Insurance

/-- Python `int(x)` (truncation toward zero) on a rational. -/
def pyInt (x : ℚ) : ℤ :=
  if 0 ≤ x then ⌊x⌋ else ⌈x⌉

/-- Python truthiness of an optional numeric column value (`None` and
`0` are falsy). -/
def truthy : Option ℚ → Bool
  | none => false
  | some x => decide (x ≠ 0)

/-- The claim-amount clamp of the main claims loop (`claims.py`):
`int(np.clip(draw, 0, min(scale, 20000 if claim_type == "Vandalism" else scale)))`
with `scale = coverage - deductible`; `np.clip` applies the lower bound
first, then the upper bound. -/
def clipClaimAmount (draw scale : ℚ) (claim_type : String) : ℤ :=
  pyInt (min (max draw 0) (min scale (if claim_type = "Vandalism" then 20000 else scale)))

/-- `calculate_settlement` (`claims.py`): non-approved claims settle at
`0` (rejected) or `None` (pending); approved claims settle at the claim
amount less the deductible, capped at coverage, then reduced by the
fraud draw `u1 ∈ [0.5, 0.8]`, the Health draw `u2 ∈ [0.8, 0.95]`, the
Travel draw `u3 ∈ [0.7, 0.9]`, or the R20,000 vandalism cap, and
truncated to an integer. The three `random.uniform` draws are explicit
oracle arguments. -/
def calculate_settlement (claim_amount deductible coverage : ℚ) (status : String)
    (fraud_indicators : Bool) (policy_type claim_type : String)
    (u1 u2 u3 : ℚ) : Option ℤ :=
  if status ≠ "Approved" then
    if status = "Rejected" then some 0 else none
  else
    let s0 := max 0 (claim_amount - deductible)
    let s1 := min s0 coverage
    let s2 := if fraud_indicators then s1 * u1 else s1
    let s3 :=
      if policy_type = "Health" then s2 * u2
      else if policy_type = "Travel" then s2 * u3
      else if claim_type = "Vandalism" then min s2 20000
      else s2
    some (pyInt s3)

/-- `determine_reinsurance_type` (`claims.py`): "XOL" when the XOL
retention is truthy and coverage exceeds the policy type's reinsurance
threshold, else "Proportional" when the reinsurance share is truthy and
positive, else "None". -/
def determine_reinsurance_type (coverage reinsurance_threshold : ℚ)
    (reinsurance_share xol_retention : Option ℚ) : String :=
  if truthy xol_retention ∧ reinsurance_threshold < coverage then "XOL"
  else if truthy reinsurance_share ∧ 0 < reinsurance_share.getD 0 then "Proportional"
  else "None"

/-- `calculate_reinsurance_settlement` (`claims.py`): `None` for a
falsy settlement; `int(settlement * reinsurance_share)` for the
proportional scheme; for XOL, `int(min(settlement, claim_amount -
xol_retention))` when the claim amount exceeds the retention, else
`None`. -/
def calculate_reinsurance_settlement (claim_amount : ℚ) (settlement : Option ℤ)
    (reinsurance_type : String) (reinsurance_share xol_retention : Option ℚ) : Option ℤ :=
  match settlement with
  | none => none
  | some s =>
    if s = 0 then none
    else if reinsurance_type = "Proportional" ∧ truthy reinsurance_share then
      some (pyInt ((s : ℚ) * reinsurance_share.getD 0))
    else if reinsurance_type = "XOL" ∧ truthy xol_retention then
      if xol_retention.getD 0 < claim_amount then
        some (pyInt (min (s : ℚ) (claim_amount - xol_retention.getD 0)))
      else none
    else none

theorem pyInt_nonneg (x : ℚ) (h : 0 ≤ x) : 0 ≤ pyInt x := by
  rw [pyInt, if_pos h]
  exact Int.floor_nonneg.mpr h

theorem pyInt_le_int (x : ℚ) (B : ℤ) (hx : 0 ≤ x) (h : x ≤ (B : ℚ)) : pyInt x ≤ B := by
  rw [pyInt, if_pos hx]
  exact (Int.floor_le_floor h).trans_eq (Int.floor_intCast B)

theorem clipClaimAmount_bounds (draw : ℚ) (deductible coverage : ℤ) (claim_type : String)
    (hdc : deductible ≤ coverage) :
    0 ≤ clipClaimAmount draw ((coverage : ℚ) - (deductible : ℚ)) claim_type ∧
    clipClaimAmount draw ((coverage : ℚ) - (deductible : ℚ)) claim_type ≤
      coverage - deductible := by
  have hscale : (0 : ℚ) ≤ (coverage : ℚ) - (deductible : ℚ) := by
    have : (deductible : ℚ) ≤ (coverage : ℚ) := by exact_mod_cast hdc
    linarith
  set ub := min ((coverage : ℚ) - (deductible : ℚ))
      (if claim_type = "Vandalism" then 20000 else (coverage : ℚ) - (deductible : ℚ)) with hub
  have hub0 : 0 ≤ ub := by
    rw [hub]
    by_cases hv : claim_type = "Vandalism"
    · rw [if_pos hv]
      exact le_min hscale (by norm_num)
    · rw [if_neg hv]
      exact le_min hscale hscale
  have hubs : ub ≤ (coverage : ℚ) - (deductible : ℚ) := min_le_left _ _
  have hq0 : 0 ≤ min (max draw 0) ub := le_min (le_max_right draw 0) hub0
  constructor
  · exact pyInt_nonneg _ hq0
  · refine pyInt_le_int _ _ hq0 ?_
    push_cast
    exact (min_le_right _ _).trans hubs

/-- C3: with a non-negative deductible not exceeding coverage and the
uniform draws inside their documented ranges, the claim amount produced
by the main-loop clip lies in `[0, coverage - deductible]`, and whenever
`calculate_settlement` on that clipped claim amount yields a settlement
value (`0` for rejected, adjusted amount for approved), that value also
lies in `[0, coverage - deductible]`. -/
theorem settlement_within_coverage_minus_deductible
    (draw : ℚ) (deductible coverage : ℤ) (status : String) (fraud : Bool)
    (policy_type claim_type : String) (u1 u2 u3 : ℚ) (s : ℤ)
    (hd : 0 ≤ deductible) (hdc : deductible ≤ coverage)
    (hu1 : 1/2 ≤ u1 ∧ u1 ≤ 4/5) (hu2 : 4/5 ≤ u2 ∧ u2 ≤ 19/20)
    (hu3 : 7/10 ≤ u3 ∧ u3 ≤ 9/10)
    (hs : calculate_settlement
      ((clipClaimAmount draw ((coverage : ℚ) - (deductible : ℚ)) claim_type : ℤ) : ℚ)
      (deductible : ℚ) (coverage : ℚ) status fraud policy_type claim_type u1 u2 u3 = some s) :
    (0 ≤ clipClaimAmount draw ((coverage : ℚ) - (deductible : ℚ)) claim_type ∧
      clipClaimAmount draw ((coverage : ℚ) - (deductible : ℚ)) claim_type ≤
        coverage - deductible) ∧
    0 ≤ s ∧ s ≤ coverage - deductible := by
  have hclip := clipClaimAmount_bounds draw deductible coverage claim_type hdc
  refine ⟨hclip, ?_⟩
  set ca : ℤ := clipClaimAmount draw ((coverage : ℚ) - (deductible : ℚ)) claim_type with hca
  have hscaleZ : (0 : ℤ) ≤ coverage - deductible := by linarith
  have hcaQ0 : (0 : ℚ) ≤ (ca : ℚ) := by exact_mod_cast hclip.1
  have hcaQub : (ca : ℚ) ≤ (coverage : ℚ) - (deductible : ℚ) := by
    have := hclip.2; exact_mod_cast this
  have hdQ : (0 : ℚ) ≤ (deductible : ℚ) := by exact_mod_cast hd
  have hscaleQ : (0 : ℚ) ≤ (coverage : ℚ) - (deductible : ℚ) := by linarith
  rw [calculate_settlement] at hs
  by_cases hap : status = "Approved"
  · rw [if_neg (by simp [hap])] at hs
    simp only [Option.some.injEq] at hs
    set s0 : ℚ := max 0 ((ca : ℚ) - (deductible : ℚ)) with hs0
    set s1 : ℚ := min s0 (coverage : ℚ) with hs1
    set s2 : ℚ := if fraud then s1 * u1 else s1 with hs2
    have hs0b : 0 ≤ s0 ∧ s0 ≤ (coverage : ℚ) - (deductible : ℚ) := by
      constructor
      · exact le_max_left 0 _
      · rw [hs0]
        apply max_le hscaleQ
        linarith
    have hs1b : 0 ≤ s1 ∧ s1 ≤ (coverage : ℚ) - (deductible : ℚ) := by
      constructor
      · exact le_min hs0b.1 (by linarith)
      · exact (min_le_left _ _).trans hs0b.2
    have hs2b : 0 ≤ s2 ∧ s2 ≤ (coverage : ℚ) - (deductible : ℚ) := by
      rw [hs2]
      by_cases hf : fraud
      · simp only [hf, if_pos]
        constructor
        · exact mul_nonneg hs1b.1 (by linarith [hu1.1])
        · calc s1 * u1 ≤ s1 * 1 := by
                exact mul_le_mul_of_nonneg_left (by linarith [hu1.2]) hs1b.1
            _ = s1 := mul_one s1
            _ ≤ _ := hs1b.2
      · simpa [hf] using hs1b
    have hs3b : ∀ s3 : ℚ,
        s3 = (if policy_type = "Health" then s2 * u2
          else if policy_type = "Travel" then s2 * u3
          else if claim_type = "Vandalism" then min s2 20000 else s2) →
        0 ≤ s3 ∧ s3 ≤ (coverage : ℚ) - (deductible : ℚ) := by
      intro s3 h3
      by_cases hh : policy_type = "Health"
      · rw [h3, if_pos hh]
        constructor
        · exact mul_nonneg hs2b.1 (by linarith [hu2.1])
        · calc s2 * u2 ≤ s2 * 1 :=
              mul_le_mul_of_nonneg_left (by linarith [hu2.2]) hs2b.1
            _ = s2 := mul_one s2
            _ ≤ _ := hs2b.2
      · by_cases ht : policy_type = "Travel"
        · rw [h3, if_neg hh, if_pos ht]
          constructor
          · exact mul_nonneg hs2b.1 (by linarith [hu3.1])
          · calc s2 * u3 ≤ s2 * 1 :=
                mul_le_mul_of_nonneg_left (by linarith [hu3.2]) hs2b.1
              _ = s2 := mul_one s2
              _ ≤ _ := hs2b.2
        · by_cases hv : claim_type = "Vandalism"
          · rw [h3, if_neg hh, if_neg ht, if_pos hv]
            exact ⟨le_min hs2b.1 (by norm_num), (min_le_left _ _).trans hs2b.2⟩
          · rw [h3, if_neg hh, if_neg ht, if_neg hv]
            exact hs2b
    obtain ⟨h30, h31⟩ := hs3b _ rfl
    rw [← hs]
    constructor
    · exact pyInt_nonneg _ h30
    · refine pyInt_le_int _ _ h30 ?_
      push_cast
      exact h31
  · rw [if_pos (by simp [hap])] at hs
    by_cases hrej : status = "Rejected"
    · rw [if_pos hrej] at hs
      cases hs
      exact ⟨le_refl 0, hscaleZ⟩
    · rw [if_neg hrej] at hs
      cases hs

theorem settlement_within_coverage_minus_deductible_witness :
    (0 ≤ clipClaimAmount 150000 ((100000 : ℚ) - (5000 : ℚ)) "Fire" ∧
      clipClaimAmount 150000 ((100000 : ℚ) - (5000 : ℚ)) "Fire" ≤ 100000 - 5000) ∧
    0 ≤ (90000 : ℤ) ∧ (90000 : ℤ) ≤ 100000 - 5000 := by
  have h := settlement_within_coverage_minus_deductible
    150000 5000 100000 "Approved" false "Life" "Fire" (3/5) (9/10) (4/5) 90000
    (by norm_num) (by norm_num) (by norm_num) (by norm_num) (by norm_num)
    (by
      have hv : ¬ ("Fire" = "Vandalism") := by decide
      have hh : ¬ ("Life" = "Health") := by decide
      have ht : ¬ ("Life" = "Travel") := by decide
      have hclip : clipClaimAmount 150000 (((100000 : ℤ) : ℚ) - ((5000 : ℤ) : ℚ)) "Fire"
          = 95000 := by
        simp only [clipClaimAmount, pyInt, hv, if_false]
        norm_num [min_def, max_def]
      rw [hclip]
      simp only [calculate_settlement, hv, hh, ht, if_false, pyInt]
      norm_num [min_def, max_def])
  exact h

/-- C4: for a truthy (nonzero) settlement: under the XOL scheme with a
truthy retention `R`, the reinsurer pays exactly
`int(min(settlement, claim_amount - R))` when the claim amount exceeds
`R` and nothing otherwise; under the proportional scheme with a truthy
share the reinsurer pays `int(settlement * share)`; a rejected (`0`) or
pending (`None`) settlement yields no reinsurer settlement. -/
theorem reinsurance_settlement_schemes
    (claim_amount : ℚ) (s : ℤ) (R share : ℚ)
    (hs : s ≠ 0) (hR : R ≠ 0) (hshare : share ≠ 0) :
    (R < claim_amount →
      calculate_reinsurance_settlement claim_amount (some s) "XOL" none (some R) =
        some (pyInt (min (s : ℚ) (claim_amount - R)))) ∧
    (claim_amount ≤ R →
      calculate_reinsurance_settlement claim_amount (some s) "XOL" none (some R) = none) ∧
    (calculate_reinsurance_settlement claim_amount (some s) "Proportional" (some share) none =
      some (pyInt ((s : ℚ) * share))) ∧
    (calculate_reinsurance_settlement claim_amount (some 0) "XOL" none (some R) = none) ∧
    (calculate_reinsurance_settlement claim_amount none "Proportional" (some share) none = none) := by
  refine ⟨?_, ?_, ?_, ?_, ?_⟩
  · intro hlt
    simp [calculate_reinsurance_settlement, hs, truthy, hR, hlt]
  · intro hle
    simp [calculate_reinsurance_settlement, hs, truthy, hR, not_lt.mpr hle]
  · simp [calculate_reinsurance_settlement, hs, truthy, hshare]
  · simp [calculate_reinsurance_settlement]
  · simp [calculate_reinsurance_settlement]

theorem reinsurance_settlement_schemes_witness :
    calculate_reinsurance_settlement 800000 (some 120000) "XOL" none (some 500000) =
      some (pyInt (min ((120000 : ℤ) : ℚ) (800000 - 500000))) ∧
    calculate_reinsurance_settlement 400000 (some 120000) "XOL" none (some 500000) = none ∧
    calculate_reinsurance_settlement 800000 (some 120000) "Proportional" (some (3/10)) none =
      some (pyInt (((120000 : ℤ) : ℚ) * (3/10))) := by
  have h1 := reinsurance_settlement_schemes 800000 120000 500000 (3/10)
    (by norm_num) (by norm_num) (by norm_num)
  have h2 := reinsurance_settlement_schemes 400000 120000 500000 (3/10)
    (by norm_num) (by norm_num) (by norm_num)
  exact ⟨h1.1 (by norm_num), h2.2.1 (by norm_num), h1.2.2.1⟩

end Insurance

namespace SAID

/-- A Python `datetime.date` (only the fields the ID builders read). -/
structure Date where
  year : ℕ
  month : ℕ
  day : ℕ
  deriving Repr, DecidableEq

/-- The two decimal digits contributed by `f"{n:02d}"` (zero-padded,
`n < 100` at every call site). -/
def twoDigits (n : ℕ) : List ℕ := [n / 10 % 10, n % 10]

/-- The four decimal digits contributed by `f"{n:04d}"` (`n ≤ 9999` at
every call site). -/
def fourDigits (n : ℕ) : List ℕ := [n / 1000 % 10, n / 100 % 10, n / 10 % 10, n % 10]

/-- `dob.strftime('%y%m%d')` as its six decimal digits: two-digit year
(`year mod 100`), zero-padded month, zero-padded day. -/
def yymmddDigits (d : Date) : List ℕ :=
  twoDigits (d.year % 100) ++ twoDigits d.month ++ twoDigits d.day

/-- `str(y)[-2:]` as decimal digits (the banking generator's
`birth_year_2d`): the last two characters of the decimal
representation, a single digit when `y < 10`. -/
def lastTwoDigits (y : ℕ) : List ℕ :=
  if y < 10 then [y] else [y / 10 % 10, y % 10]

/-- One step of the checksum loop of `generate_valid_sa_id`
(`insurance code/customers.py`): digits at even 0-indexed positions are
doubled, with `d -= 9` when the double exceeds 9. -/
def luhnAddend (i d : ℕ) : ℕ :=
  if i % 2 = 0 then (if 9 < d * 2 then d * 2 - 9 else d * 2) else d

/-- The checksum loop's `total` accumulator over the first 12 digits. -/
def luhnTotal (ds : List ℕ) : ℕ :=
  ds.enum.foldl (fun acc p => acc + luhnAddend p.1 p.2) 0

/-- `generate_valid_sa_id` (`insurance code/customers.py`), as the digit
sequence of the returned string: YYMMDD, the four-digit gender block
(the `random.randint` draw is the `gender_digit` oracle argument), the
citizenship digit `0`, one random digit, and the Luhn-style checksum. -/
def generate_valid_sa_id (dob : Date) (gender : String)
    (gender_digit random_digit : ℕ) : List ℕ :=
  let yymmdd := yymmddDigits dob
  let gd := if gender = "F" then gender_digit else gender_digit
  let first_12 := yymmdd ++ fourDigits gd ++ [0] ++ [random_digit]
  let checksum := (10 - luhnTotal first_12 % 10) % 10
  first_12 ++ [checksum]

/-- The National ID construction of `generate_individual_customer`
(`banking-code/customer.py`): `birth_year_2d + birth_month + birth_day +
sequence` as digits, with zero-padded month/day and a four-digit
sequence draw. -/
def national_id_digits (birth_date : Date) (sequence : ℕ) : List ℕ :=
  lastTwoDigits birth_date.year ++ twoDigits birth_date.month ++
    twoDigits birth_date.day ++ fourDigits sequence

/-- C6: the first six digits of every generated South African ID equal
the YYMMDD encoding of the recorded date of birth — for the insurance
applicant generator (`generate_valid_sa_id`, any gender and any draws)
and for the banking customer generator's National ID (birth years have
at least two decimal digits there, `year = TARGET_YEAR - age`). -/
theorem sa_id_first_six_digits_match_dob
    (dob birth : Date) (gender : String) (gender_digit random_digit sequence : ℕ)
    (hyear : 10 ≤ birth.year) :
    (generate_valid_sa_id dob gender gender_digit random_digit).take 6 = yymmddDigits dob ∧
    (national_id_digits birth sequence).take 6 = yymmddDigits birth := by
  constructor
  · show ((yymmddDigits dob ++ fourDigits _ ++ [0] ++ [random_digit]) ++ _).take 6 = _
    rw [yymmddDigits, twoDigits, twoDigits, twoDigits]
    simp [List.take]
  · rw [national_id_digits, yymmddDigits, lastTwoDigits,
      if_neg (by omega : ¬ birth.year < 10), twoDigits, twoDigits, twoDigits]
    have h1 : birth.year / 10 % 10 = birth.year % 100 / 10 % 10 := by omega
    have h2 : birth.year % 10 = birth.year % 100 % 10 := by omega
    rw [h1, h2]
    simp [List.take]

theorem sa_id_first_six_digits_match_dob_witness :
    (generate_valid_sa_id ⟨1987, 3, 9⟩ "F" 1234 7).take 6 =
      yymmddDigits ⟨1987, 3, 9⟩ ∧
    (national_id_digits ⟨1987, 3, 9⟩ 42).take 6 = yymmddDigits ⟨1987, 3, 9⟩ :=
  sa_id_first_six_digits_match_dob ⟨1987, 3, 9⟩ ⟨1987, 3, 9⟩ "F" 1234 7 42
    (by norm_num)

end SAID

namespace Banking

/-- A dataframe row: cells keyed by column name. -/
structure Row where
  cells : List (String × String)
  deriving Repr, DecidableEq

/-- Column access `row[col]` (empty for an absent column). -/
def Row.get (r : Row) (c : String) : String :=
  ((r.cells.find? (fun p => p.1 = c)).map Prod.snd).getD ""

/-- A loaded table. -/
def DataFrame := List Row

/-- The file system the scripts read from: a path resolves to the
file's rows, or to nothing when the file is missing. -/
def FileSystem := String → Option DataFrame

/-- `FileNotFoundError`, the one exception these scripts raise and
catch. -/
inductive FsError where
  | fileNotFound
  deriving Repr, DecidableEq

/-- `pd.read_parquet(path)`: raises `FileNotFoundError` when the path
is missing. -/
def read_parquet (fs : FileSystem) (path : String) : Except FsError DataFrame :=
  match fs path with
  | none => .error .fileNotFound
  | some rows => .ok rows

/-- The `try` body of `load_existing_transactions` (`transactions.py`):
read both combined transaction files, then keep the rows whose
`transaction_date` starts with the year and whose `account_id` occurs
in the accounts table. -/
def load_existing_transactions_body (fs : FileSystem) (year : ℤ) (accounts_df : DataFrame) :
    Except FsError (DataFrame × DataFrame) := do
  let loan ← read_parquet fs "banking_data/loan_payment_transactions_2018_2024.parquet"
  let debit ← read_parquet fs "banking_data/debit_order_transactions_2018_2024.parquet"
  let valid_account_ids := accounts_df.map (fun r => r.get "account_id")
  let loanF := loan.filter (fun r =>
    (r.get "transaction_date").startsWith (toString year) &&
      valid_account_ids.contains (r.get "account_id"))
  let debitF := debit.filter (fun r =>
    (r.get "transaction_date").startsWith (toString year) &&
      valid_account_ids.contains (r.get "account_id"))
  pure (loanF, debitF)

/-- `load_existing_transactions`: the whole body sits in a
`try/except FileNotFoundError` that logs a warning and returns two
empty dataframes, so the caller always receives a plain pair. -/
def load_existing_transactions (fs : FileSystem) (year : ℤ) (accounts_df : DataFrame) :
    DataFrame × DataFrame :=
  match load_existing_transactions_body fs year accounts_df with
  | .ok v => v
  | .error .fileNotFound => (([] : DataFrame), ([] : DataFrame))

/-- `generate_accounts` (`accounts.py`) up to its customer-file read:
a missing `customers_{year}.parquet` is caught, a message printed, and
an empty dataframe returned; the remainder of the generator (abstracted
as `rest`, which only runs on a successfully read table) is otherwise
applied. -/
def generate_accounts (rest : DataFrame → DataFrame) (fs : FileSystem) (year : ℤ) :
    DataFrame :=
  match read_parquet fs ("banking_data/customers_" ++ toString year ++ ".parquet") with
  | .error .fileNotFound => ([] : DataFrame)
  | .ok df_customers => rest df_customers

/-- C7: when an input file is missing, the generators recover locally:
`load_existing_transactions` returns two empty tables whenever either
combined transaction file is absent (the caught `FileNotFoundError`
never reaches the caller — the function's value is a plain pair), and
`generate_accounts` returns an empty table whenever its customer input
file is absent, for every possible remainder of the generator. -/
theorem missing_input_recovered_locally (fs : FileSystem) (year : ℤ)
    (accounts_df : DataFrame) (rest : DataFrame → DataFrame)
    (hmiss : fs "banking_data/loan_payment_transactions_2018_2024.parquet" = none ∨
             fs "banking_data/debit_order_transactions_2018_2024.parquet" = none)
    (hcust : fs ("banking_data/customers_" ++ toString year ++ ".parquet") = none) :
    load_existing_transactions fs year accounts_df = (([] : DataFrame), ([] : DataFrame)) ∧
    generate_accounts rest fs year = ([] : DataFrame) := by
  constructor
  · rcases hmiss with h | h
    · unfold load_existing_transactions load_existing_transactions_body read_parquet
      rw [h]
      cases fs "banking_data/debit_order_transactions_2018_2024.parquet" <;> rfl
    · unfold load_existing_transactions load_existing_transactions_body read_parquet
      rw [h]
      cases fs "banking_data/loan_payment_transactions_2018_2024.parquet" <;> rfl
  · simp [generate_accounts, read_parquet, hcust]

theorem missing_input_recovered_locally_witness :
    load_existing_transactions (fun _ => none) 2020 [] = (([] : DataFrame), ([] : DataFrame)) ∧
    generate_accounts id (fun _ => none) 2020 = ([] : DataFrame) :=
  missing_input_recovered_locally (fun _ => none) 2020 [] id (Or.inl rfl) rfl

end Banking

namespace Airline

/-- One row of `self.flight_data` as `generate_bookings` reads it
(`airplane code/bookings.py`); `scheduled_departure` is a point on the
timeline, in minutes. -/
structure Flight where
  planning_id : String
  route_id : String
  origin_city : String
  destination_city : String
  scheduled_departure : ℤ
  aircraft_capacity : ℕ
  aircraft_type : String
  deriving Repr, DecidableEq

/-- One sampled main-holder customer row. -/
structure Customer where
  client_id : String
  city : String
  deriving Repr, DecidableEq

/-- A generated booking row (the fields the date invariant concerns,
plus the identifying and passenger fields built alongside them). -/
structure Booking where
  booking_id : String
  customer_id : String
  planning_id : String
  booking_date : ℤ
  trip_type : String
  num_adults : ℕ
  num_children : ℕ
  num_infants : ℕ
  booking_class : String
  booking_status : String
  outbound_id : Option String
  seat_request : Option String
  deriving Repr, DecidableEq

/-- All random draws one iteration of the booking `while` loop
consumes: the sampled customer, the passenger composition, the
`_generate_booking_date` result, the trip type, class, status and seat
draws, and the two `_find_return_flight` draws (its `max_days` coin and
its weighted index choice). Quantifying over the oracle covers every
run of the random generators. -/
structure AttemptDraws where
  customer : Customer
  num_adults : ℕ
  num_children : ℕ
  num_infants : ℕ
  booking_date : ℤ
  trip_type : String
  booking_class : String
  status : String
  seat : Option String
  return_max_days : ℕ
  return_pick : ℕ
  return_seat : Option String
  deriving Repr, DecidableEq

/-- Minutes in a `timedelta(days=1)`. -/
def minutesPerDay : ℤ := 1440

/-- `f"BK{year}{counter:06d}"` (zero padding left as plain decimal
digits). -/
def bookingId (year counter : ℕ) : String :=
  "BK" ++ toString year ++ toString counter

/-- `_find_return_flight`: keep the flights flying the reverse leg that
depart strictly after the outbound flight, restrict to the
`[departure + 1 day, departure + max_days]` window, and pick one by the
weighted index draw (empty results give `None`). -/
def find_return_flight (flight_data : List Flight) (outbound : Flight)
    (max_days : ℕ) (pick : ℕ) : Option Flight :=
  let return_flights := flight_data.filter (fun f =>
    f.origin_city = outbound.destination_city &&
    f.destination_city = outbound.origin_city &&
    outbound.scheduled_departure < f.scheduled_departure)
  if return_flights.isEmpty then none
  else
    let min_return_date := outbound.scheduled_departure + minutesPerDay
    let max_return_date := outbound.scheduled_departure + (max_days : ℤ) * minutesPerDay
    let windowed := return_flights.filter (fun f =>
      min_return_date ≤ f.scheduled_departure && f.scheduled_departure ≤ max_return_date)
    if h : windowed.length = 0 then none
    else some (windowed.get ⟨pick % windowed.length, Nat.mod_lt _ (Nat.pos_of_ne_zero h)⟩)

/-- The booking `while` loop of `generate_bookings` for one flight:
`fuel` counts the remaining attempts (initially `max_attempts =
target_bookings * 3`), `attempt` indexes the oracle, `current` is
`current_bookings`, `counter` the global booking counter and `acc` the
bookings list built so far. Mirrors, in order: the loop guard, the
Cape-Town/Johannesburg skip, the passenger-composition downgrade and
its overflow skip, the `booking_date >= scheduled_departure` skip, the
booking row, and the return-leg booking when `_find_return_flight`
yields a flight. -/
def attemptLoop (flight_data : List Flight) (flight : Flight) (year : ℕ)
    (draws : ℕ → AttemptDraws) (target : ℕ) :
    ℕ → ℕ → ℕ → ℕ → List Booking → List Booking × ℕ
  | 0, _, _, counter, acc => (acc, counter)
  | fuel + 1, attempt, current, counter, acc =>
    if target ≤ current then (acc, counter)
    else
      let d := draws attempt
      if d.customer.city = "Cape Town" ∧ flight.origin_city = "Johannesburg" then
        attemptLoop flight_data flight year draws target fuel (attempt + 1) current counter acc
      else
        let comp :=
          if target < current + (d.num_adults + d.num_children) then
            ((1 : ℕ), (0 : ℕ), (0 : ℕ))
          else (d.num_adults, d.num_children, d.num_infants)
        let total_passengers :=
          if target < current + (d.num_adults + d.num_children) then 1
          else d.num_adults + d.num_children
        if target < current + total_passengers then
          attemptLoop flight_data flight year draws target fuel (attempt + 1) current counter acc
        else if flight.scheduled_departure ≤ d.booking_date then
          attemptLoop flight_data flight year draws target fuel (attempt + 1) current counter acc
        else
          let booking : Booking :=
            { booking_id := bookingId year counter
              customer_id := d.customer.client_id
              planning_id := flight.planning_id
              booking_date := d.booking_date
              trip_type := d.trip_type
              num_adults := comp.1
              num_children := comp.2.1
              num_infants := comp.2.2
              booking_class := d.booking_class
              booking_status := d.status
              outbound_id := none
              seat_request := d.seat }
          let current1 := current + total_passengers
          let counter1 := counter + 1
          if d.trip_type = "return" then
            match find_return_flight flight_data flight d.return_max_days d.return_pick with
            | some return_flight =>
              let return_booking : Booking :=
                { booking with
                    booking_id := bookingId year counter1
                    planning_id := return_flight.planning_id
                    trip_type := "return"
                    outbound_id := some booking.booking_id
                    seat_request := d.return_seat }
              attemptLoop flight_data flight year draws target fuel (attempt + 1) current1
                (counter1 + 1) (acc ++ [booking, return_booking])
            | none =>
              attemptLoop flight_data flight year draws target fuel (attempt + 1) current1
                counter1 (acc ++ [booking])
          else
            attemptLoop flight_data flight year draws target fuel (attempt + 1) current1
              counter1 (acc ++ [booking])

/-- The outer `for flight in self.flight_data` loop: `targetOf idx` is
the flight's randomly drawn `target_bookings` (load factor times
capacity times overbooking), `max_attempts` is three times that. -/
def processFlights (flight_data : List Flight) (year : ℕ)
    (oracle : ℕ → ℕ → AttemptDraws) (targetOf : ℕ → ℕ) :
    List Flight → ℕ → ℕ → List Booking → List Booking
  | [], _, _, acc => acc
  | f :: rest, idx, counter, acc =>
    let st := attemptLoop flight_data f year (oracle idx) (targetOf idx)
      (targetOf idx * 3) 0 0 counter acc
    processFlights flight_data year oracle targetOf rest (idx + 1) st.2 st.1

/-- `DynamicAirlineBookingsGenerator.generate_bookings`, parameterized
by the random draws. -/
def generate_bookings (flight_data : List Flight) (year : ℕ)
    (oracle : ℕ → ℕ → AttemptDraws) (targetOf : ℕ → ℕ) : List Booking :=
  processFlights flight_data year oracle targetOf flight_data 0 1 []

/-- The booking references some flight of the dataset and precedes its
departure. -/
def BookedBeforeDeparture (flight_data : List Flight) (b : Booking) : Prop :=
  ∃ fl ∈ flight_data, fl.planning_id = b.planning_id ∧
    b.booking_date < fl.scheduled_departure

theorem get_pick_mem {α : Type} (l : List α) (pick : ℕ) (h : ¬ l.length = 0) :
    l.get ⟨pick % l.length, Nat.mod_lt _ (Nat.pos_of_ne_zero h)⟩ ∈ l :=
  List.get_mem _ _ _

theorem find_return_flight_mem (flight_data : List Flight) (outbound : Flight)
    (max_days pick : ℕ) (rf : Flight)
    (h : find_return_flight flight_data outbound max_days pick = some rf) :
    rf ∈ flight_data ∧ outbound.scheduled_departure < rf.scheduled_departure := by
  simp only [find_return_flight] at h
  split at h
  · cases h
  · split at h
    · cases h
    next hl =>
      injection h with h2
      subst h2
      have hmemw := get_pick_mem _ pick hl
      have hmemr := List.mem_of_mem_filter hmemw
      refine ⟨List.mem_of_mem_filter hmemr, ?_⟩
      have hprop := List.of_mem_filter hmemr
      simp only [Bool.and_eq_true, decide_eq_true_eq] at hprop
      exact hprop.2

theorem attemptLoop_preserves (flight_data : List Flight) (flight : Flight) (year : ℕ)
    (draws : ℕ → AttemptDraws) (target : ℕ) (hf : flight ∈ flight_data) :
    ∀ (fuel attempt current counter : ℕ) (acc : List Booking),
      (∀ b ∈ acc, BookedBeforeDeparture flight_data b) →
      ∀ b ∈ (attemptLoop flight_data flight year draws target
              fuel attempt current counter acc).1,
        BookedBeforeDeparture flight_data b := by
  intro fuel
  induction fuel with
  | zero => intro attempt current counter acc hacc b hb; exact hacc b hb
  | succ fuel ih =>
    intro attempt current counter acc hacc b hb
    rw [attemptLoop] at hb
    by_cases h1 : target ≤ current
    · rw [if_pos h1] at hb
      exact hacc b hb
    · rw [if_neg h1] at hb
      set d := draws attempt with hd
      by_cases h2 : d.customer.city = "Cape Town" ∧ flight.origin_city = "Johannesburg"
      · rw [if_pos h2] at hb
        exact ih _ _ _ _ hacc b hb
      · rw [if_neg h2] at hb
        set total_passengers :=
          if target < current + (d.num_adults + d.num_children) then 1
          else d.num_adults + d.num_children with htp
        by_cases h3 : target < current + total_passengers
        · rw [if_pos h3] at hb
          exact ih _ _ _ _ hacc b hb
        · rw [if_neg h3] at hb
          by_cases h4 : flight.scheduled_departure ≤ d.booking_date
          · rw [if_pos h4] at hb
            exact ih _ _ _ _ hacc b hb
          · rw [if_neg h4] at hb
            have hdate : d.booking_date < flight.scheduled_departure := lt_of_not_le h4
            have hout : BookedBeforeDeparture flight_data
                { booking_id := bookingId year counter
                  customer_id := d.customer.client_id
                  planning_id := flight.planning_id
                  booking_date := d.booking_date
                  trip_type := d.trip_type
                  num_adults := (if target < current + (d.num_adults + d.num_children) then
                      ((1 : ℕ), (0 : ℕ), (0 : ℕ))
                    else (d.num_adults, d.num_children, d.num_infants)).1
                  num_children := (if target < current + (d.num_adults + d.num_children) then
                      ((1 : ℕ), (0 : ℕ), (0 : ℕ))
                    else (d.num_adults, d.num_children, d.num_infants)).2.1
                  num_infants := (if target < current + (d.num_adults + d.num_children) then
                      ((1 : ℕ), (0 : ℕ), (0 : ℕ))
                    else (d.num_adults, d.num_children, d.num_infants)).2.2
                  booking_class := d.booking_class
                  booking_status := d.status
                  outbound_id := none
                  seat_request := d.seat } :=
              ⟨flight, hf, rfl, hdate⟩
            by_cases h5 : d.trip_type = "return"
            · rw [if_pos h5] at hb
              cases hfr : find_return_flight flight_data flight d.return_max_days
                  d.return_pick with
              | some rf =>
                rw [hfr] at hb
                refine ih _ _ _ _ ?_ b hb
                intro x hx
                rcases List.mem_append.mp hx with hx | hx
                · exact hacc x hx
                · rcases List.mem_cons.mp hx with hx | hx
                  · rw [hx]; exact hout
                  · rcases List.mem_cons.mp hx with hx | hx
                    · rw [hx]
                      obtain ⟨hrfmem, hrfdep⟩ :=
                        find_return_flight_mem flight_data flight _ _ rf hfr
                      exact ⟨rf, hrfmem, rfl, hdate.trans hrfdep⟩
                    · cases hx
              | none =>
                rw [hfr] at hb
                refine ih _ _ _ _ ?_ b hb
                intro x hx
                rcases List.mem_append.mp hx with hx | hx
                · exact hacc x hx
                · rcases List.mem_cons.mp hx with hx | hx
                  · rw [hx]; exact hout
                  · cases hx
            · rw [if_neg h5] at hb
              refine ih _ _ _ _ ?_ b hb
              intro x hx
              rcases List.mem_append.mp hx with hx | hx
              · exact hacc x hx
              · rcases List.mem_cons.mp hx with hx | hx
                · rw [hx]; exact hout
                · cases hx

theorem processFlights_preserves (flight_data : List Flight) (year : ℕ)
    (oracle : ℕ → ℕ → AttemptDraws) (targetOf : ℕ → ℕ) :
    ∀ (l : List Flight), (∀ f ∈ l, f ∈ flight_data) →
    ∀ (idx counter : ℕ) (acc : List Booking),
      (∀ b ∈ acc, BookedBeforeDeparture flight_data b) →
      ∀ b ∈ processFlights flight_data year oracle targetOf l idx counter acc,
        BookedBeforeDeparture flight_data b := by
  intro l
  induction l with
  | nil => intro _ idx counter acc hacc b hb; exact hacc b hb
  | cons f rest ih =>
    intro hl idx counter acc hacc b hb
    rw [processFlights] at hb
    refine ih (fun x hx => hl x (List.mem_cons_of_mem f hx)) _ _ _ ?_ b hb
    exact attemptLoop_preserves flight_data f year (oracle idx) (targetOf idx)
      (hl f (List.mem_cons_self f rest)) _ _ _ _ acc hacc

/-- C5: every booking row `generate_bookings` produces — outbound rows
and the return-leg rows alike — has a `booking_date` strictly earlier
than the scheduled departure of a flight of the dataset carrying its
`planning_id`, for every flight table, year, and random draw. -/
theorem booking_date_before_departure (flight_data : List Flight) (year : ℕ)
    (oracle : ℕ → ℕ → AttemptDraws) (targetOf : ℕ → ℕ) (b : Booking)
    (hb : b ∈ generate_bookings flight_data year oracle targetOf) :
    ∃ fl ∈ flight_data, fl.planning_id = b.planning_id ∧
      b.booking_date < fl.scheduled_departure := by
  have := processFlights_preserves flight_data year oracle targetOf flight_data
    (fun _ hx => hx) 0 1 [] (fun b hb => absurd hb (List.not_mem_nil b)) b hb
  exact this

end Airline

namespace Airline

/-- A one-flight dataset for exercising `generate_bookings`. -/
def testFlight : Flight :=
  { planning_id := "PL1", route_id := "R1", origin_city := "Johannesburg",
    destination_city := "Durban", scheduled_departure := 10000,
    aircraft_capacity := 100, aircraft_type := "A320" }

/-- Fixed draws for every attempt of the test run. -/
def testDraws : AttemptDraws :=
  { customer := { client_id := "CU1", city := "Durban" }, num_adults := 1,
    num_children := 0, num_infants := 0, booking_date := 5000,
    trip_type := "one-way", booking_class := "economy", status := "confirmed",
    seat := none, return_max_days := 14, return_pick := 0, return_seat := none }

/-- The single booking the test run produces. -/
def testBooking : Booking :=
  { booking_id := "BK20241", customer_id := "CU1", planning_id := "PL1",
    booking_date := 5000, trip_type := "one-way", num_adults := 1,
    num_children := 0, num_infants := 0, booking_class := "economy",
    booking_status := "confirmed", outbound_id := none, seat_request := none }

theorem booking_date_before_departure_witness :
    testBooking ∈ generate_bookings [testFlight] 2024 (fun _ _ => testDraws) (fun _ => 1) ∧
    ∃ fl ∈ [testFlight], fl.planning_id = testBooking.planning_id ∧
      testBooking.booking_date < fl.scheduled_departure := by
  have hmem : testBooking ∈
      generate_bookings [testFlight] 2024 (fun _ _ => testDraws) (fun _ => 1) := by
    decide
  exact ⟨hmem, booking_date_before_departure [testFlight] 2024
    (fun _ _ => testDraws) (fun _ => 1) testBooking hmem⟩

end Airline

namespace Banking

/-- `base_individual_ranges.get(year, (1800, 3200))` of
`get_realistic_customer_volumes` (`customer.py`). -/
def base_individual_range (year : ℤ) : ℤ × ℤ :=
  if year = 2018 then (2500, 4200)
  else if year = 2019 then (2100, 3800)
  else if year = 2020 then (150, 800)
  else if year = 2021 then (600, 1500)
  else if year = 2022 then (1200, 2400)
  else if year = 2023 then (1800, 3200)
  else if year = 2024 then (2200, 3800)
  else if year = 2025 then (2300, 4000)
  else (1800, 3200)

/-- `base_company_ranges.get(year, (80, 180))`. -/
def base_company_range (year : ℤ) : ℤ × ℤ :=
  if year = 2018 then (120, 280)
  else if year = 2019 then (85, 200)
  else if year = 2020 then (15, 65)
  else if year = 2021 then (35, 120)
  else if year = 2022 then (60, 150)
  else if year = 2023 then (80, 180)
  else if year = 2024 then (100, 220)
  else if year = 2025 then (110, 240)
  else (80, 180)

/-- `random.randint(a, b)` with oracle draw `v`: an arbitrary value
brought into `[a, b]`. -/
def randintDraw (a b v : ℤ) : ℤ := max a (min b v)

/-- The weighted sub-ranges `[(lo, lo+span*0.35),
(lo+span*0.25, lo+span*0.75), (lo+span*0.65, hi)]` built for the
`random.choices(..., weights=[0.25, 0.50, 0.25])` pick. -/
def sub_ranges (lo hi : ℤ) : List (ℚ × ℚ) :=
  [((lo : ℚ), (lo : ℚ) + ((hi : ℚ) - (lo : ℚ)) * (35/100)),
   ((lo : ℚ) + ((hi : ℚ) - (lo : ℚ)) * (25/100),
     (lo : ℚ) + ((hi : ℚ) - (lo : ℚ)) * (75/100)),
   ((lo : ℚ) + ((hi : ℚ) - (lo : ℚ)) * (65/100), (hi : ℚ))]

/-- The "double randomization" of the helper:
`random.randint(random.randint(int(sel[0]), int(sel[0] + (sel[1]-sel[0])*0.6)),
random.randint(int(sel[0] + (sel[1]-sel[0])*0.4), int(sel[1])))`. -/
def doubleRandint (sel : ℚ × ℚ) (v1 v2 v3 : ℤ) : ℤ :=
  randintDraw
    (randintDraw (Insurance.pyInt sel.1)
      (Insurance.pyInt (sel.1 + (sel.2 - sel.1) * (6/10))) v1)
    (randintDraw (Insurance.pyInt (sel.1 + (sel.2 - sel.1) * (4/10)))
      (Insurance.pyInt sel.2) v2)
    v3

/-- `get_realistic_customer_volumes` (`customer.py`) up to its first
`return` statement — the only part of the helper that can execute: pick
a weighted sub-range for individuals and for companies (the picks are
the oracle indexes) and draw the doubly nested `randint` volumes.
Everything after `return num_individuals, num_companies` in the source
is dead code. -/
def get_realistic_customer_volumes (pickInd pickCom : ℕ) (draws : ℕ → ℤ)
    (year : ℤ) : ℤ × ℤ :=
  let ind := base_individual_range year
  let com := base_company_range year
  let selInd := (sub_ranges ind.1 ind.2).getD (pickInd % 3) (0, 0)
  let selCom := (sub_ranges com.1 com.2).getD (pickCom % 3) (0, 0)
  (doubleRandint selInd (draws 0) (draws 1) (draws 2),
   doubleRandint selCom (draws 3) (draws 4) (draws 5))

/-- `generate_customer_data` (`customer.py`): the body seeds the RNGs
from `os.urandom` entropy, prints the seed, defines the nested helper
`get_realistic_customer_volumes`, and ends. Every statement from
`NUM_INDIVIDUALS, NUM_COMPANIES = get_realistic_customer_volumes(year)`
through the final `return df` sits inside the helper after its first
`return`, so none of it runs: the function writes no file and falls
through to Python's implicit `None`. The result pairs the returned
value with the list of file paths written. -/
def generate_customer_data (entropy : ℕ) (year : ℤ) : Option DataFrame × List String :=
  let seed_int := entropy
  let _ := seed_int
  let _ := year
  (none, ([] : List String))

end Banking

namespace Insurance

/-- A deterministic model of a seeded `random`/NumPy draw stream: after
`random.seed(s)`, every draw is a fixed function of `s` and the draw
index — which is exactly what the determinism claims rely on. -/
def seededStream (seed : ℕ) : ℕ → ℕ :=
  fun i => (seed * 1103515245 + 12345 + i * 2654435761) % 2147483648

/-- A run of an insurance generator script (`claims.py`,
`customers.py`): the module preamble executes `random.seed(42)` and
`np.random.seed(42)`, so the script body `gen` consumes the stream
seeded with the constant `42`; the `entropy` argument is the OS
randomness `os.urandom` would supply, which these scripts never read. -/
def insuranceRun
    (gen : (ℕ → ℕ) → Banking.DataFrame → Banking.DataFrame → Banking.DataFrame)
    (entropy : ℕ) (policies customers : Banking.DataFrame) : Banking.DataFrame :=
  let _ := entropy
  gen (seededStream 42) policies customers

end Insurance

namespace Banking

/-- C9: for every entropy and year, `generate_customer_data` returns
`None` and writes no output file (all construction and saving code is
unreachable inside the nested helper), so the `__main__` block's
`df.empty` runs on `None` and can produce no Boolean. -/
theorem generate_customer_data_returns_none (entropy : ℕ) (year : ℤ) :
    generate_customer_data entropy year = (none, ([] : List String)) ∧
    (generate_customer_data entropy year).1.map
      (fun df : DataFrame => df.isEmpty) = none :=
  ⟨rfl, rfl⟩

/-- C8, evaluated at the failing input: two runs of the banking
customer generator with different `os.urandom` entropies (0 and 1, year
2018) produce the same output — `None` and no files — because the
generation code is unreachable, so OS entropy never reaches any output;
the fixed-seed insurance scripts meanwhile are deterministic: an
`insuranceRun` is independent of entropy for every script body and
every input tables. -/
theorem generate_customer_data_entropy_invariant :
    generate_customer_data 0 2018 = generate_customer_data 1 2018 ∧
    generate_customer_data 0 2018 = (none, ([] : List String)) ∧
    (∀ (gen : (ℕ → ℕ) → DataFrame → DataFrame → DataFrame)
       (entropy1 entropy2 : ℕ) (policies customers : DataFrame),
       Insurance.insuranceRun gen entropy1 policies customers =
         Insurance.insuranceRun gen entropy2 policies customers) :=
  ⟨rfl, rfl, fun _ _ _ _ _ => rfl⟩

end Banking
